import Mathlib

/-!
Shallow embedding of the n8n-python-scraper repository
(src/api_server.py and src/scraper.py) and proofs about its
retry/backoff controller, content-extraction fallback, batch
orchestration, renderer pool and concurrency gate.

External collaborators (the playwright renderer, trafilatura and
html2text) are opaque in the source; they appear here as function
parameters. Python string operations used by the source are embedded
as structural functions over character lists so that all definitions
evaluate by kernel reduction.
-/

/-! ## Python string primitives -/

/-- Python str.strip(): drop whitespace from both ends. -/
def pyStrip (s : String) : String :=
  String.mk (((s.data.dropWhile Char.isWhitespace).reverse.dropWhile Char.isWhitespace).reverse)

/-- Python str.lower() (ASCII-level). -/
def pyLower (s : String) : String :=
  String.mk (s.data.map Char.toLower)

/-- Python len() on strings: number of characters. -/
def pyLen (s : String) : Nat :=
  s.data.length

def listStartsWith : List Char → List Char → Bool
  | _, [] => true
  | [], _ :: _ => false
  | c :: cs, p :: ps => c == p && listStartsWith cs ps

/-- Python str.startswith. -/
def pyStartsWith (s pat : String) : Bool :=
  listStartsWith s.data pat.data

def listInfix (ps : List Char) : List Char → Bool
  | [] => ps.isEmpty
  | h :: t => listStartsWith (h :: t) ps || listInfix ps t

/-- Python `pat in s` substring test. -/
def pyContains (s pat : String) : Bool :=
  listInfix pat.data s.data

def splitLinesAux : List Char → List (List Char)
  | [] => [[]]
  | c :: rest =>
    match splitLinesAux rest with
    | [] => [[]]
    | l :: ls => if c = '\n' then [] :: l :: ls else (c :: l) :: ls

/-- Python s.split(chr(10)). -/
def pySplitLines (s : String) : List String :=
  (splitLinesAux s.data).map String.mk

/-- Python chr(10).join(lines). -/
def pyJoinLines : List String → String
  | [] => ""
  | [l] => l
  | l :: ls => l ++ "\n" ++ pyJoinLines ls

/-! ## Content Extractor (extract_content, src/api_server.py lines 35-76;
identical copy in src/scraper.py lines 9-50).

trafilatura.extract is opaque: parameter `traf : String → Option String`
(None or extracted text). html2text's handle is opaque: parameter
`h2t : String → String`. -/

/-- The per-line keep test of the fallback cleanup loop
(src/api_server.py lines 63-74): a line is kept when its stripped form
is non-empty and none of the junk patterns fires. -/
def keepLine (line : String) : Bool :=
  let stripped := pyStrip line
  stripped != "" &&
  !(pyStartsWith stripped "Skip to" ||
    pyStartsWith stripped "Cookie" ||
    pyStartsWith stripped "Accept all" ||
    pyContains (pyLower stripped) "privacy policy" ||
    pyContains (pyLower stripped) "terms of service" ||
    decide (pyLen stripped < 3))

/-- Fallback cleanup (src/api_server.py lines 61-76): split into lines,
keep the lines passing `keepLine`, rejoin. -/
def fallbackClean (fallback_content : String) : String :=
  pyJoinLines ((pySplitLines fallback_content).filter keepLine)

/-- extract_content (src/api_server.py lines 35-76): return the primary
extractor's output when it is truthy and its stripped length exceeds
200; otherwise return the cleaned fallback conversion. -/
def extract_content (traf : String → Option String) (h2t : String → String)
    (html_content : String) : String :=
  match traf html_content with
  | some extracted =>
    if extracted ≠ "" ∧ 200 < pyLen (pyStrip extracted) then extracted
    else fallbackClean (h2t html_content)
  | none => fallbackClean (h2t html_content)

/-! ## Attempt Executor and Retry Controller
(scrape_single_url, src/api_server.py lines 79-148).

The attempt body's interaction with the renderer is opaque: a
`NavResult` says how navigation/content/title retrieval went for one
attempt. The except-clauses classify an attempt into an
`AttemptOutcome`: success, asyncio.TimeoutError, ValueError
(validation), or any other exception. -/

inductive NavResult where
  | ok (html : String) (title : String)
  | timeout (msg : String)
  | fail (msg : String)
deriving DecidableEq

inductive AttemptOutcome where
  | success (title : String) (content : String)
  | timeout (msg : String)
  | validation (msg : String)
  | other (msg : String)
deriving DecidableEq

/-- One attempt body (src/api_server.py lines 93-132): on completed
navigation, extract content; raise ValueError when the content is
falsy or its stripped length is below 50; otherwise succeed. Timeouts
and other exceptions map to their except-clauses. -/
def run_attempt (traf : String → Option String) (h2t : String → String)
    (nav : NavResult) : AttemptOutcome :=
  match nav with
  | .ok html title =>
    let content := extract_content traf h2t html
    if content = "" ∨ pyLen (pyStrip content) < 50 then
      .validation "Extracted content too short (< 50 chars)"
    else
      .success title content
  | .timeout msg => .timeout msg
  | .fail msg => .other msg

structure ScrapeResult where
  url : String
  title : Option String
  content : Option String
  status : String
  error : Option String
  attempts : Option Nat
deriving DecidableEq

def isSuccess : AttemptOutcome → Bool
  | .success _ _ => true
  | _ => false

/-- The text stored into `last_error` for a failed attempt
(src/api_server.py lines 122, 126, 130). -/
def failMsg : AttemptOutcome → String
  | .success _ _ => ""
  | .timeout m => "Timeout: " ++ m
  | .validation m => "Validation: " ++ m
  | .other m => m

/-- The asyncio.sleep duration after a failed attempt with 0-based
index i (src/api_server.py lines 124, 128, 132): 2 ** i seconds after
a timeout, 1 second otherwise. -/
def backoffDelay : AttemptOutcome → Nat → Nat
  | .timeout _, i => 2 ^ i
  | _, _ => 1

/-- The `for attempt in range(max_retries)` loop of scrape_single_url
(src/api_server.py lines 91-148). `env` gives the outcome of each
0-based attempt index; the second component records the asyncio.sleep
durations performed, in order. -/
def scrape_loop (env : Nat → AttemptOutcome) (url : String) (maxRetries : Nat) :
    Nat → Nat → Option String → List Nat → ScrapeResult × List Nat
  | _, 0, lastError, sleeps =>
    (⟨url, none, none, "error", lastError, some maxRetries⟩, sleeps)
  | attempt, remaining + 1, _lastError, sleeps =>
    match env attempt with
    | .success title content =>
      (⟨url, some title, some content, "success", none, some (attempt + 1)⟩, sleeps)
    | .timeout msg =>
      scrape_loop env url maxRetries (attempt + 1) remaining
        (some ("Timeout: " ++ msg)) (sleeps ++ [2 ^ attempt])
    | .validation msg =>
      scrape_loop env url maxRetries (attempt + 1) remaining
        (some ("Validation: " ++ msg)) (sleeps ++ [1])
    | .other msg =>
      scrape_loop env url maxRetries (attempt + 1) remaining
        (some msg) (sleeps ++ [1])

/-- scrape_single_url (src/api_server.py lines 79-148): strip the URL,
return None when blank, otherwise run the retry loop. -/
def scrape_single_url (env : Nat → AttemptOutcome) (url : String)
    (max_retries : Nat) : Option ScrapeResult × List Nat :=
  let u := pyStrip url
  if u = "" then (none, [])
  else
    let r := scrape_loop env u max_retries 0 max_retries none []
    (some r.1, r.2)

/-! ## Batch Orchestrator (scrape_urls, src/api_server.py lines 267-334).

`env i` gives the attempt outcomes of the task dispatched for the URL
at 0-based position i; asyncio.gather returns results in dispatch
order, embedded by the ordered task list. -/

structure ScrapeRequest where
  urls : List String
  callback_url : Option String
deriving DecidableEq

structure ScrapeResponse where
  results : List ScrapeResult
  total_urls : Nat
  successful : Nat
  failed : Nat
deriving DecidableEq

inductive BatchOutcome where
  | rejected (status_code : Nat) (detail : String)
  | ok (resp : ScrapeResponse)
deriving DecidableEq

/-- The task list built at src/api_server.py line 292 and gathered in
order at line 293: one scrape_single_url per input URL. -/
def batchTasks (env : Nat → Nat → AttemptOutcome) : Nat → List String → List (Option ScrapeResult)
  | _, [] => []
  | i, u :: rest => (scrape_single_url (env i) u 3).1 :: batchTasks env (i + 1) rest

/-- scrape_urls (src/api_server.py lines 267-334): reject oversized then
empty batches with HTTP 400; otherwise gather per-URL tasks in order,
drop None results, and count successes and failures. -/
def scrape_urls (env : Nat → Nat → AttemptOutcome) (request : ScrapeRequest) : BatchOutcome :=
  if 100 < request.urls.length then
    .rejected 400 "Maximum 100 URLs allowed per request"
  else if request.urls = [] then
    .rejected 400 "At least one URL is required"
  else
    let results := (batchTasks env 0 request.urls).filterMap id
    let successful := (results.filter (fun r => r.status == "success")).length
    let failed := results.length - successful
    .ok ⟨results, request.urls.length, successful, failed⟩

/-! ## Renderer Pool (src/api_server.py lines 151-229).

State: the browser_context and browser globals (identified by numeric
ids), the request_count counter and a fresh-id supply. Side effects of
an acquisition are recorded as an ordered action list. Close calls can
fail (`closeOk`); the source swallows such failures. -/

def BROWSER_RESTART_INTERVAL : Nat := 50

structure PoolState where
  browser_context : Option Nat
  browser : Option Nat
  request_count : Nat
  fresh : Nat
deriving DecidableEq

inductive PoolAction where
  | closeContext (id : Nat) (ok : Bool)
  | closeBrowser (id : Nat) (ok : Bool)
  | gcCollect
  | launch (browserId : Nat) (contextId : Nat)
deriving DecidableEq

/-- restart_browser (src/api_server.py lines 159-198): best-effort close
of the old context and browser (failures swallowed), gc.collect, then
launch a new browser and context. -/
def restart_browser (closeOk : Nat → Bool) (s : PoolState) : PoolState × List PoolAction :=
  let ctxActs : List PoolAction :=
    match s.browser_context with
    | some c => [.closeContext c (closeOk c)]
    | none => []
  let brActs : List PoolAction :=
    match s.browser with
    | some b => [.closeBrowser b (closeOk b)]
    | none => []
  let b := s.fresh
  let c := s.fresh + 1
  (PoolState.mk (some c) (some b) s.request_count (s.fresh + 2),
   ctxActs ++ brActs ++ [.gcCollect, .launch b c])

/-- get_browser_context (src/api_server.py lines 201-229): restart and
zero the counter when request_count has reached the threshold; lazily
cold-start when no context exists (the source binds the new browser to
a local variable, so the browser global is left unchanged there);
otherwise hand back the existing context. -/
def get_browser_context (closeOk : Nat → Bool) (s : PoolState) :
    PoolState × Option Nat × List PoolAction :=
  if BROWSER_RESTART_INTERVAL ≤ s.request_count then
    let r := restart_browser closeOk s
    let s2 := PoolState.mk r.1.browser_context r.1.browser 0 r.1.fresh
    (s2, s2.browser_context, r.2)
  else if s.browser_context = none then
    let b := s.fresh
    let c := s.fresh + 1
    (PoolState.mk (some c) s.browser s.request_count (s.fresh + 2),
     some c, [.launch b c])
  else
    (s, s.browser_context, [])

/-! ## Concurrency gate (src/api_server.py line 154:
semaphore = asyncio.Semaphore(5); acquired around every attempt body at
lines 92-137 by `async with semaphore`).

An execution of one batch is abstracted as the trace of gate events:
task t acquires a slot when it starts an attempt body and releases it
when the attempt body exits. asyncio.Semaphore admits an acquire only
while a slot is free; `gateOk` checks a trace obeys those semantics,
`holding` lists the tasks currently inside an attempt body. -/

def semCapacity : Nat := 5

inductive GateEvent where
  | acquire (t : Nat)
  | release (t : Nat)
deriving DecidableEq

/-- Tasks holding a slot after processing a trace from holder list hs. -/
def holdingFrom (hs : List Nat) : List GateEvent → List Nat
  | [] => hs
  | .acquire t :: es => holdingFrom (t :: hs) es
  | .release t :: es => holdingFrom (hs.erase t) es

/-- Semaphore discipline: an acquire happens only when the holder count
is below capacity and the task is not already holding; a release only
by a holder. -/
def gateOk (cap : Nat) (hs : List Nat) : List GateEvent → Bool
  | [] => true
  | .acquire t :: es =>
    !hs.contains t && decide (hs.length < cap) && gateOk cap (t :: hs) es
  | .release t :: es =>
    hs.contains t && gateOk cap (hs.erase t) es

/-! ## CLI surface (src/scraper.py).

scraper.py's scrape_single_url (lines 53-93) performs a single attempt:
no retry loop, no content-length validation, no attempts field. main
(lines 115-149) splits the comma-separated --url value, strips entries
and drops blank ones before dispatch. -/

structure CliResult where
  url : String
  title : Option String
  content : Option String
  status : String
  error : Option String
deriving DecidableEq

/-- scraper.py scrape_single_url (lines 53-93): one attempt; any
exception yields a status=error result with the exception text; a
completed navigation yields status=success with the extracted content,
with no length validation. -/
def cli_scrape_single_url (traf : String → Option String) (h2t : String → String)
    (nav : NavResult) (url : String) : Option CliResult :=
  let u := pyStrip url
  if u = "" then none
  else
    match nav with
    | .ok html title => some ⟨u, some title, some (extract_content traf h2t html), "success", none⟩
    | .timeout msg => some ⟨u, none, none, "error", some msg⟩
    | .fail msg => some ⟨u, none, none, "error", some msg⟩

/-- The ordered task list of scraper.py scrape_urls_async (lines
107-108); `world i` is the navigation outcome for the task at position
i. -/
def cliTasks (traf : String → Option String) (h2t : String → String)
    (world : Nat → NavResult) : Nat → List String → List (Option CliResult)
  | _, [] => []
  | i, u :: rest =>
    cli_scrape_single_url traf h2t (world i) u :: cliTasks traf h2t world (i + 1) rest

/-- scraper.py scrape_urls_async (lines 96-112): gather in dispatch
order, drop None results. -/
def cli_scrape_urls_async (traf : String → Option String) (h2t : String → String)
    (world : Nat → NavResult) (urls : List String) : List CliResult :=
  (cliTasks traf h2t world 0 urls).filterMap id

def pySplitComma (s : String) : List String :=
  (s.data.foldr
    (fun c acc =>
      match acc with
      | [] => [[c]]
      | l :: ls => if c = ',' then [] :: l :: ls else (c :: l) :: ls)
    [[]]).map String.mk

/-- The URL parsing of scraper.py main (line 122): split the --url
argument on commas, strip each entry, keep the non-blank ones. -/
def cli_parse_urls (arg : String) : List String :=
  ((pySplitComma arg).map pyStrip).filter (fun u => u != "")

/-! ## Helper lemmas -/

theorem length_dropWhile_le (p : Char → Bool) (l : List Char) :
    (l.dropWhile p).length ≤ l.length := by
  induction l with
  | nil => exact Nat.le_refl _
  | cons c t ih =>
    by_cases h : p c
    · simp only [List.dropWhile_cons_of_pos h]
      exact Nat.le_succ_of_le ih
    · simp [List.dropWhile_cons_of_neg h]

theorem pyLen_pyStrip_le (s : String) : pyLen (pyStrip s) ≤ pyLen s := by
  unfold pyStrip pyLen
  simp only [List.length_reverse]
  exact Nat.le_trans (length_dropWhile_le _ _)
    (Nat.le_trans (Nat.le_of_eq (List.length_reverse _)) (length_dropWhile_le _ _))

theorem length_filter_lt_of_mem {α : Type} (p : α → Bool) (l : List α) (x : α)
    (hx : x ∈ l) (hpx : p x = false) : (l.filter p).length < l.length := by
  induction l with
  | nil => cases hx
  | cons a t ih =>
    rcases List.mem_cons.mp hx with rfl | hmem
    · simp only [List.filter_cons, hpx, Bool.false_eq_true, if_false, List.length_cons]
      exact Nat.lt_succ_of_le (List.length_filter_le p t)
    · cases h : p a with
      | true => simpa [List.filter_cons, h] using Nat.succ_lt_succ (ih hmem)
      | false =>
        simp only [List.filter_cons, h, Bool.false_eq_true, if_false, List.length_cons]
        exact Nat.lt_succ_of_lt (ih hmem)

theorem scrape_loop_exhaust (env : Nat → AttemptOutcome) (u : String) (m a : Nat)
    (le : Option String) (sl : List Nat) :
    scrape_loop env u m a 0 le sl = (⟨u, none, none, "error", le, some m⟩, sl) := rfl

theorem scrape_loop_succ_step (env : Nat → AttemptOutcome) (u : String) (m a r : Nat)
    (le : Option String) (sl : List Nat) (t c : String) (h : env a = .success t c) :
    scrape_loop env u m a (r + 1) le sl =
      (⟨u, some t, some c, "success", none, some (a + 1)⟩, sl) := by
  simp [scrape_loop, h]

theorem scrape_loop_fail_step (env : Nat → AttemptOutcome) (u : String) (m a r : Nat)
    (le : Option String) (sl : List Nat) (h : isSuccess (env a) = false) :
    scrape_loop env u m a (r + 1) le sl =
      scrape_loop env u m (a + 1) r (some (failMsg (env a)))
        (sl ++ [backoffDelay (env a) a]) := by
  cases henv : env a <;> simp_all [scrape_loop, isSuccess, failMsg, backoffDelay]

theorem scrape_loop_url (env : Nat → AttemptOutcome) (u : String) (m : Nat) :
    ∀ r a le sl, ((scrape_loop env u m a r le sl).1).url = u := by
  intro r
  induction r with
  | zero => intro a le sl; rfl
  | succ n ih =>
    intro a le sl
    cases h : env a <;> simp [scrape_loop, h, ih]

theorem scrape_single_url_blank (env : Nat → AttemptOutcome) (u : String) (m : Nat)
    (h : pyStrip u = "") : (scrape_single_url env u m).1 = none := by
  simp [scrape_single_url, h]

theorem scrape_single_url_eq (env : Nat → AttemptOutcome) (u : String) (m : Nat)
    (h : pyStrip u ≠ "") :
    scrape_single_url env u m =
      (some (scrape_loop env (pyStrip u) m 0 m none []).1,
       (scrape_loop env (pyStrip u) m 0 m none []).2) := by
  simp [scrape_single_url, h]

/-! ## Claim theorems -/

/-- C1: with maxAttempts = 3, scrape_single_url returns
status=success with attempts=1 when the first attempt succeeds;
status=success with attempts=k+1 when k < 3 attempts fail and attempt
k+1 succeeds; and status=error with attempts=3 and error equal to the
last failure's recorded message when all three attempts fail. -/
theorem scrape_single_url_retry_contract (env : Nat → AttemptOutcome) (url : String)
    (hurl : pyStrip url ≠ "") :
    (∀ t c, env 0 = .success t c →
      (scrape_single_url env url 3).1 =
        some ⟨pyStrip url, some t, some c, "success", none, some 1⟩) ∧
    (∀ k, k < 3 → (∀ i, i < k → isSuccess (env i) = false) →
      ∀ t c, env k = .success t c →
      (scrape_single_url env url 3).1 =
        some ⟨pyStrip url, some t, some c, "success", none, some (k + 1)⟩) ∧
    ((∀ i, i < 3 → isSuccess (env i) = false) →
      (scrape_single_url env url 3).1 =
        some ⟨pyStrip url, none, none, "error", some (failMsg (env 2)), some 3⟩) := by
  rw [scrape_single_url_eq env url 3 hurl]
  refine ⟨?_, ?_, ?_⟩
  · intro t c h
    rw [scrape_loop_succ_step env (pyStrip url) 3 0 2 none [] t c h]
  · intro k hk hfail t c hsucc
    interval_cases k
    · rw [scrape_loop_succ_step env (pyStrip url) 3 0 2 none [] t c hsucc]
    · rw [scrape_loop_fail_step env (pyStrip url) 3 0 2 none [] (hfail 0 (by norm_num)),
        scrape_loop_succ_step env (pyStrip url) 3 1 1 _ _ t c hsucc]
    · rw [scrape_loop_fail_step env (pyStrip url) 3 0 2 none [] (hfail 0 (by norm_num)),
        scrape_loop_fail_step env (pyStrip url) 3 1 1 _ _ (hfail 1 (by norm_num)),
        scrape_loop_succ_step env (pyStrip url) 3 2 0 _ _ t c hsucc]
  · intro hfail
    rw [scrape_loop_fail_step env (pyStrip url) 3 0 2 none [] (hfail 0 (by norm_num)),
      scrape_loop_fail_step env (pyStrip url) 3 1 1 _ _ (hfail 1 (by norm_num)),
      scrape_loop_fail_step env (pyStrip url) 3 2 0 _ _ (hfail 2 (by norm_num)),
      scrape_loop_exhaust]

/-- C1 witness: a timeout on the first attempt followed by a success on
the second yields status=success with attempts=2. -/
theorem scrape_single_url_retry_contract_witness :
    (scrape_single_url
      (fun n => if n = 0 then AttemptOutcome.timeout "x" else AttemptOutcome.success "T" "C")
      "u" 3).1 =
      some ⟨"u", some "T", some "C", "success", none, some 2⟩ := by
  have h := (scrape_single_url_retry_contract
    (fun n => if n = 0 then AttemptOutcome.timeout "x" else AttemptOutcome.success "T" "C")
    "u" (by decide)).2.1 1 (by norm_num)
    (fun i hi => by interval_cases i; rfl) "T" "C" rfl
  simpa using h

/-- C2 counterexample: when all three attempts time out, the recorded
asyncio.sleep list is [1, 2, 4] — three delays for three attempts, so a
backoff delay of 2^2 = 4 seconds is applied after the final (third)
attempt as well, where the claim predicts only the two delays [1, 2]
and none after the final attempt. -/
theorem scrape_single_url_final_sleep_counterexample :
    (scrape_single_url (fun _ => AttemptOutcome.timeout "t") "u" 3).2 = [1, 2, 4] ∧
    [1, 2, 4] ≠ ([1, 2] : List Nat) := by
  refine ⟨?_, by decide⟩
  rfl

/-- C2 (amended): on every failed attempt with 1-based number n = i + 1
the loop sleeps backoffDelay seconds — 2^(n-1) for a timeout, 1 for a
validation or other failure — and this delay is applied after every
failed attempt, including the final one when all maxAttempts = 3
attempts fail. -/
theorem scrape_single_url_backoff_contract (env : Nat → AttemptOutcome) (url : String)
    (hurl : pyStrip url ≠ "") :
    (∀ k, k < 3 → (∀ i, i < k → isSuccess (env i) = false) → isSuccess (env k) = true →
      (scrape_single_url env url 3).2 = (List.range k).map (fun i => backoffDelay (env i) i)) ∧
    ((∀ i, i < 3 → isSuccess (env i) = false) →
      (scrape_single_url env url 3).2 =
        (List.range 3).map (fun i => backoffDelay (env i) i)) := by
  rw [scrape_single_url_eq env url 3 hurl]
  have hsucc : ∀ a, isSuccess (env a) = true → ∃ t c, env a = .success t c := by
    intro a h
    cases henv : env a <;> simp_all [isSuccess]
  constructor
  · intro k hk hfail hk2
    obtain ⟨t, c, hs⟩ := hsucc k hk2
    interval_cases k
    · rw [scrape_loop_succ_step env (pyStrip url) 3 0 2 none [] t c hs]
      rfl
    · rw [scrape_loop_fail_step env (pyStrip url) 3 0 2 none [] (hfail 0 (by norm_num)),
        scrape_loop_succ_step env (pyStrip url) 3 1 1 _ _ t c hs]
      simp [List.range_succ]
    · rw [scrape_loop_fail_step env (pyStrip url) 3 0 2 none [] (hfail 0 (by norm_num)),
        scrape_loop_fail_step env (pyStrip url) 3 1 1 _ _ (hfail 1 (by norm_num)),
        scrape_loop_succ_step env (pyStrip url) 3 2 0 _ _ t c hs]
      simp [List.range_succ]
  · intro hfail
    rw [scrape_loop_fail_step env (pyStrip url) 3 0 2 none [] (hfail 0 (by norm_num)),
      scrape_loop_fail_step env (pyStrip url) 3 1 1 _ _ (hfail 1 (by norm_num)),
      scrape_loop_fail_step env (pyStrip url) 3 2 0 _ _ (hfail 2 (by norm_num)),
      scrape_loop_exhaust]
    simp [List.range_succ]

/-- C2 witness: a timeout, then a validation failure, then a success:
the sleeps are [2^0, 1] = [1, 1]. -/
theorem scrape_single_url_backoff_contract_witness :
    (scrape_single_url
      (fun n => if n = 0 then AttemptOutcome.timeout "x"
        else if n = 1 then AttemptOutcome.validation "v"
        else AttemptOutcome.success "T" "C") "u" 3).2 = [1, 1] := by
  have h := (scrape_single_url_backoff_contract
    (fun n => if n = 0 then AttemptOutcome.timeout "x"
      else if n = 1 then AttemptOutcome.validation "v"
      else AttemptOutcome.success "T" "C") "u" (by decide)).1 2 (by norm_num)
    (fun i hi => by interval_cases i <;> rfl) rfl
  simpa using h

/-- C4: when navigation and extraction complete but the extracted text
is empty or shorter than 50 characters, the attempt is classified as
the retryable validation failure carrying the too-short message, it is
not a success, and the retry loop reacts to it by moving on to the
next attempt (with the flat 1-second sleep) instead of returning a
success result. -/
theorem attempt_short_content_validation (traf : String → Option String)
    (h2t : String → String) (html title : String)
    (h : extract_content traf h2t html = "" ∨ pyLen (extract_content traf h2t html) < 50) :
    run_attempt traf h2t (.ok html title) =
      .validation "Extracted content too short (< 50 chars)" ∧
    isSuccess (run_attempt traf h2t (.ok html title)) = false ∧
    (∀ env u m a r le sl, env a = run_attempt traf h2t (.ok html title) →
      scrape_loop env u m a (r + 1) le sl =
        scrape_loop env u m (a + 1) r
          (some "Validation: Extracted content too short (< 50 chars)") (sl ++ [1])) := by
  have hcond : extract_content traf h2t html = "" ∨
      pyLen (pyStrip (extract_content traf h2t html)) < 50 := by
    rcases h with h | h
    · exact Or.inl h
    · exact Or.inr (Nat.lt_of_le_of_lt (pyLen_pyStrip_le _) h)
  have hrun : run_attempt traf h2t (.ok html title) =
      .validation "Extracted content too short (< 50 chars)" := by
    simp [run_attempt, hcond]
  refine ⟨hrun, by simp [hrun, isSuccess], ?_⟩
  intro env u m a r le sl henv
  rw [hrun] at henv
  simp [scrape_loop, henv]

/-- C4 witness: extraction yields the 5-character text "short"; the
attempt is classified as the validation failure. -/
theorem attempt_short_content_validation_witness :
    run_attempt (fun _ => none) (fun _ => "short") (NavResult.ok "<html>" "T") =
      AttemptOutcome.validation "Extracted content too short (< 50 chars)" :=
  (attempt_short_content_validation (fun _ => none) (fun _ => "short") "<html>" "T"
    (Or.inr (by decide))).1

/-- C3: extract_content returns the primary extractor's output exactly
when that output is truthy and its stripped length exceeds 200;
otherwise it returns the fallback converter's output cleaned line by
line, where cleaning drops every blank line, every line whose stripped
length is below 3, and every boilerplate line — in particular a line
"Accept all cookies" never survives the cleanup filter. -/
theorem extract_content_fallback_contract (traf : String → Option String)
    (h2t : String → String) (html : String) :
    (∀ t, traf html = some t → t ≠ "" → 200 < pyLen (pyStrip t) →
      extract_content traf h2t html = t) ∧
    (∀ t, traf html = some t → ¬(t ≠ "" ∧ 200 < pyLen (pyStrip t)) →
      extract_content traf h2t html = fallbackClean (h2t html)) ∧
    (traf html = none → extract_content traf h2t html = fallbackClean (h2t html)) ∧
    (∀ line, pyStrip line = "" → keepLine line = false) ∧
    (∀ line, pyLen (pyStrip line) < 3 → keepLine line = false) ∧
    (∀ s, "Accept all cookies" ∉ (pySplitLines s).filter keepLine) := by
  refine ⟨?_, ?_, ?_, ?_, ?_, ?_⟩
  · intro t ht hne hlen
    simp [extract_content, ht, hne, hlen]
  · intro t ht hnot
    simp [extract_content, ht, hnot]
  · intro ht
    simp [extract_content, ht]
  · intro line hblank
    simp [keepLine, hblank]
  · intro line hshort
    simp [keepLine, hshort]
  · intro s hmem
    have hk : keepLine "Accept all cookies" = true := (List.mem_filter.mp hmem).2
    have : keepLine "Accept all cookies" = false := by decide
    simp [this] at hk

/-- C3 witness: the primary extractor yields only "tiny", so the
cleaned fallback conversion is used, and its "Accept all cookies" line
is dropped. -/
theorem extract_content_fallback_contract_witness :
    extract_content (fun _ => some "tiny") (fun _ => "Hello world\nAccept all cookies\nBye now")
      "<html>" = "Hello world\nBye now" := by
  have h := (extract_content_fallback_contract (fun _ => some "tiny")
    (fun _ => "Hello world\nAccept all cookies\nBye now") "<html>").2.1
    "tiny" rfl (by decide)
  rw [h]
  rfl


theorem batchTasks_urls (env : Nat → Nat → AttemptOutcome) :
    ∀ (urls : List String) (i : Nat),
      ((batchTasks env i urls).filterMap id).map (fun r => r.url) =
        (urls.map pyStrip).filter (fun s => s != "") := by
  intro urls
  induction urls with
  | nil => intro i; rfl
  | cons u rest ih =>
    intro i
    by_cases h : pyStrip u = ""
    · simp [batchTasks, scrape_single_url_blank (env i) u 3 h, ih, h]
    · rw [batchTasks, scrape_single_url_eq (env i) u 3 h]
      simp [ih, h, scrape_loop_url]

/-- C5: a batch whose URL list is empty or longer than 100 entries is
rejected with HTTP 400 and the outcome does not depend on any per-URL
scraping environment: no per-URL work influences it. -/
theorem scrape_urls_reject_contract (request : ScrapeRequest)
    (h : request.urls = [] ∨ 100 < request.urls.length) :
    ∀ env env' : Nat → Nat → AttemptOutcome,
      scrape_urls env request = .rejected 400
        (if 100 < request.urls.length then "Maximum 100 URLs allowed per request"
         else "At least one URL is required") ∧
      scrape_urls env request = scrape_urls env' request := by
  intro env env'
  rcases h with h | h
  · have hlen : ¬(100 < request.urls.length) := by
      rw [h]
      simp
    simp [scrape_urls, h, hlen]
  · simp [scrape_urls, h]

/-- C5 witness: the empty batch is rejected with the missing-URL
message. -/
theorem scrape_urls_reject_contract_witness :
    scrape_urls (fun _ _ => AttemptOutcome.timeout "t") ⟨[], none⟩ =
      .rejected 400 "At least one URL is required" := by
  have h := (scrape_urls_reject_contract ⟨[], none⟩ (Or.inl rfl)
    (fun _ _ => AttemptOutcome.timeout "t") (fun _ _ => AttemptOutcome.timeout "t")).1
  simpa using h

/-- C6: a valid batch returns its results in input order restricted to
the non-blank URLs: the url fields of the result list equal the
stripped input URLs with the blank ones dropped, so blank entries
contribute no result. -/
theorem scrape_urls_order_contract (env : Nat → Nat → AttemptOutcome)
    (request : ScrapeRequest) (h1 : request.urls ≠ [])
    (h2 : request.urls.length ≤ 100) :
    ∃ resp, scrape_urls env request = .ok resp ∧
      resp.results.map (fun r => r.url) =
        (request.urls.map pyStrip).filter (fun s => s != "") ∧
      resp.results.length =
        ((request.urls.map pyStrip).filter (fun s => s != "")).length := by
  have hlen : ¬(100 < request.urls.length) := Nat.not_lt.mpr h2
  refine ⟨⟨(batchTasks env 0 request.urls).filterMap id, request.urls.length,
    (((batchTasks env 0 request.urls).filterMap id).filter
      (fun r => r.status == "success")).length,
    ((batchTasks env 0 request.urls).filterMap id).length -
      (((batchTasks env 0 request.urls).filterMap id).filter
        (fun r => r.status == "success")).length⟩, ?_, ?_, ?_⟩
  · simp [scrape_urls, h1, hlen]
  · exact batchTasks_urls env request.urls 0
  · have h := congrArg List.length (batchTasks_urls env request.urls 0)
    simpa using h

/-- C6 witness: the batch ["https://a.test", "", "https://b.test"]
yields exactly two results, for the two non-blank URLs, in their input
order. -/
theorem scrape_urls_order_contract_witness :
    ∃ resp, scrape_urls (fun _ _ => AttemptOutcome.success "T" "C")
        ⟨["https://a.test", "", "https://b.test"], none⟩ = .ok resp ∧
      resp.results.map (fun r => r.url) = ["https://a.test", "https://b.test"] ∧
      resp.results.length = 2 := by
  obtain ⟨resp, hok, hmap, hcount⟩ := scrape_urls_order_contract
    (fun _ _ => AttemptOutcome.success "T" "C")
    ⟨["https://a.test", "", "https://b.test"], none⟩ (by simp) (by simp)
  refine ⟨resp, hok, ?_, ?_⟩
  · rw [hmap]
    rfl
  · rw [hcount]
    rfl

/-- C10: for a valid batch, total_urls counts every submitted entry,
blanks included, while the result list drops blank entries; successful
plus failed equals the number of results, and when a blank entry is
present successful + failed is strictly below total_urls. -/
theorem scrape_urls_counts_contract (env : Nat → Nat → AttemptOutcome)
    (request : ScrapeRequest) (h1 : request.urls ≠ [])
    (h2 : request.urls.length ≤ 100) :
    ∃ resp, scrape_urls env request = .ok resp ∧
      resp.total_urls = request.urls.length ∧
      resp.successful + resp.failed = resp.results.length ∧
      resp.results.length ≤ request.urls.length ∧
      ((∃ u ∈ request.urls, pyStrip u = "") →
        resp.successful + resp.failed < resp.total_urls) := by
  have hlen : ¬(100 < request.urls.length) := Nat.not_lt.mpr h2
  have hle : (((batchTasks env 0 request.urls).filterMap id).filter
      (fun r => r.status == "success")).length ≤
      ((batchTasks env 0 request.urls).filterMap id).length :=
    List.length_filter_le _ _
  have hlens : ((batchTasks env 0 request.urls).filterMap id).length =
      ((request.urls.map pyStrip).filter (fun s => s != "")).length := by
    have h := congrArg List.length (batchTasks_urls env request.urls 0)
    simpa using h
  refine ⟨⟨(batchTasks env 0 request.urls).filterMap id, request.urls.length,
    (((batchTasks env 0 request.urls).filterMap id).filter
      (fun r => r.status == "success")).length,
    ((batchTasks env 0 request.urls).filterMap id).length -
      (((batchTasks env 0 request.urls).filterMap id).filter
        (fun r => r.status == "success")).length⟩, ?_, rfl, ?_, ?_, ?_⟩
  · simp [scrape_urls, h1, hlen]
  · exact Nat.add_sub_cancel' hle
  · rw [hlens]
    exact Nat.le_trans (List.length_filter_le _ _) (Nat.le_of_eq (List.length_map _ _))
  · intro hblank
    obtain ⟨u, hu, hub⟩ := hblank
    have hmemmap : pyStrip u ∈ request.urls.map pyStrip := List.mem_map_of_mem pyStrip hu
    have hfalse : (fun s => s != "") (pyStrip u) = false := by
      simp [hub]
    have hlt : ((request.urls.map pyStrip).filter (fun s => s != "")).length <
        (request.urls.map pyStrip).length :=
      length_filter_lt_of_mem _ _ _ hmemmap hfalse
    simp only [List.length_map] at hlt
    calc (((batchTasks env 0 request.urls).filterMap id).filter
            (fun r => r.status == "success")).length +
          (((batchTasks env 0 request.urls).filterMap id).length -
            (((batchTasks env 0 request.urls).filterMap id).filter
              (fun r => r.status == "success")).length)
        = ((batchTasks env 0 request.urls).filterMap id).length :=
          Nat.add_sub_cancel' hle
      _ = ((request.urls.map pyStrip).filter (fun s => s != "")).length := hlens
      _ < request.urls.length := hlt

/-- C10 witness: with one blank among three URLs, successful + failed =
2 while total_urls = 3. -/
theorem scrape_urls_counts_contract_witness :
    ∃ resp, scrape_urls (fun _ _ => AttemptOutcome.success "T" "C")
        ⟨["https://a.test", "", "https://b.test"], none⟩ = .ok resp ∧
      resp.total_urls = 3 ∧
      resp.successful + resp.failed < resp.total_urls := by
  obtain ⟨resp, hok, htot, _, _, hstrict⟩ := scrape_urls_counts_contract
    (fun _ _ => AttemptOutcome.success "T" "C")
    ⟨["https://a.test", "", "https://b.test"], none⟩ (by simp) (by simp)
  exact ⟨resp, hok, htot, hstrict ⟨"", by simp, rfl⟩⟩

/-- C7: acquiring the browser context when the request counter has
reached BROWSER_RESTART_INTERVAL = 50 closes the existing context and
the existing browser (result unaffected by close failures), runs the
gc hint, resets the counter to zero and hands out a freshly launched
context; when no context exists yet and the counter is below the
threshold, one is cold-started, and an acquisition below the threshold
with a live context reuses it unchanged. -/
theorem get_browser_context_contract (closeOk closeOk' : Nat → Bool) (s : PoolState) :
    (∀ c0, BROWSER_RESTART_INTERVAL ≤ s.request_count → s.browser_context = some c0 →
      (get_browser_context closeOk s).1.request_count = 0 ∧
      (get_browser_context closeOk s).2.1 = some (s.fresh + 1) ∧
      (c0 < s.fresh → (get_browser_context closeOk s).2.1 ≠ some c0) ∧
      PoolAction.closeContext c0 (closeOk c0) ∈ (get_browser_context closeOk s).2.2 ∧
      (∀ b0, s.browser = some b0 →
        PoolAction.closeBrowser b0 (closeOk b0) ∈ (get_browser_context closeOk s).2.2) ∧
      PoolAction.gcCollect ∈ (get_browser_context closeOk s).2.2 ∧
      PoolAction.launch s.fresh (s.fresh + 1) ∈ (get_browser_context closeOk s).2.2 ∧
      (get_browser_context closeOk s).1 = (get_browser_context closeOk' s).1 ∧
      (get_browser_context closeOk s).2.1 = (get_browser_context closeOk' s).2.1) ∧
    (s.request_count < BROWSER_RESTART_INTERVAL → s.browser_context = none →
      (get_browser_context closeOk s).2.1 = some (s.fresh + 1) ∧
      (get_browser_context closeOk s).1.browser_context = some (s.fresh + 1) ∧
      (get_browser_context closeOk s).1.request_count = s.request_count ∧
      PoolAction.launch s.fresh (s.fresh + 1) ∈ (get_browser_context closeOk s).2.2) ∧
    (∀ c, s.request_count < BROWSER_RESTART_INTERVAL → s.browser_context = some c →
      get_browser_context closeOk s = (s, some c, [])) := by
  refine ⟨?_, ?_, ?_⟩
  · intro c0 hth hctx
    cases hb : s.browser with
    | none =>
      have hres : ∀ ck : Nat → Bool, get_browser_context ck s =
          (PoolState.mk (some (s.fresh + 1)) (some s.fresh) 0 (s.fresh + 2),
           some (s.fresh + 1),
           [PoolAction.closeContext c0 (ck c0), PoolAction.gcCollect,
            PoolAction.launch s.fresh (s.fresh + 1)]) := by
        intro ck
        simp [get_browser_context, restart_browser, hctx, hb, hth]
      rw [hres closeOk, hres closeOk']
      refine ⟨rfl, rfl, ?_, ?_, ?_, ?_, ?_, rfl, rfl⟩
      · intro hlt hEq
        have : s.fresh + 1 = c0 := by
          simpa using hEq
        omega
      · simp
      · intro b0 hb0
        exact Option.noConfusion hb0
      · simp
      · simp
    | some b =>
      have hres : ∀ ck : Nat → Bool, get_browser_context ck s =
          (PoolState.mk (some (s.fresh + 1)) (some s.fresh) 0 (s.fresh + 2),
           some (s.fresh + 1),
           [PoolAction.closeContext c0 (ck c0), PoolAction.closeBrowser b (ck b),
            PoolAction.gcCollect, PoolAction.launch s.fresh (s.fresh + 1)]) := by
        intro ck
        simp [get_browser_context, restart_browser, hctx, hb, hth]
      rw [hres closeOk, hres closeOk']
      refine ⟨rfl, rfl, ?_, ?_, ?_, ?_, ?_, rfl, rfl⟩
      · intro hlt hEq
        have : s.fresh + 1 = c0 := by
          simpa using hEq
        omega
      · simp
      · intro b0 hb0
        injection hb0 with hbb
        subst hbb
        simp
      · simp
      · simp
  · intro hth hctx
    have hnotth : ¬(BROWSER_RESTART_INTERVAL ≤ s.request_count) := Nat.not_le.mpr hth
    simp [get_browser_context, hctx, hnotth]
  · intro c hth hctx
    have hnotth : ¬(BROWSER_RESTART_INTERVAL ≤ s.request_count) := Nat.not_le.mpr hth
    have hne : s.browser_context ≠ none := by
      rw [hctx]
      exact Option.some_ne_none c
    simp [get_browser_context, hnotth, hne, hctx]

/-- C7 witness: at counter 50 with context 7 and browser 6 live, the
acquisition (whose close calls all fail) resets the counter, launches
browser 8 with context 9, hands out context 9, and closes both the old
context and the old browser. -/
theorem get_browser_context_contract_witness :
    (get_browser_context (fun _ => false) (PoolState.mk (some 7) (some 6) 50 8)).1.request_count
        = 0 ∧
    (get_browser_context (fun _ => false) (PoolState.mk (some 7) (some 6) 50 8)).2.1 = some 9 ∧
    PoolAction.closeContext 7 false ∈
      (get_browser_context (fun _ => false) (PoolState.mk (some 7) (some 6) 50 8)).2.2 ∧
    PoolAction.closeBrowser 6 false ∈
      (get_browser_context (fun _ => false) (PoolState.mk (some 7) (some 6) 50 8)).2.2 ∧
    PoolAction.gcCollect ∈
      (get_browser_context (fun _ => false) (PoolState.mk (some 7) (some 6) 50 8)).2.2 := by
  have h := (get_browser_context_contract (fun _ => false) (fun _ => true)
    (PoolState.mk (some 7) (some 6) 50 8)).1 7 (by decide) rfl
  exact ⟨h.1, h.2.1, h.2.2.2.1, h.2.2.2.2.1 6 rfl, h.2.2.2.2.2.1⟩

theorem holdingFrom_take_bound (cap : Nat) :
    ∀ (evs : List GateEvent) (hs : List Nat), gateOk cap hs evs = true →
      hs.length ≤ cap → ∀ n, (holdingFrom hs (evs.take n)).length ≤ cap := by
  intro evs
  induction evs with
  | nil =>
    intro hs _ hle n
    simpa [holdingFrom] using hle
  | cons e rest ih =>
    intro hs hok hle n
    cases n with
    | zero => simpa [holdingFrom] using hle
    | succ m =>
      cases e with
      | acquire t =>
        simp only [gateOk, Bool.and_eq_true, decide_eq_true_eq] at hok
        rw [List.take_succ_cons]
        exact ih (t :: hs) hok.2 (by simpa using hok.1.2) m
      | release t =>
        simp only [gateOk, Bool.and_eq_true] at hok
        rw [List.take_succ_cons]
        exact ih (hs.erase t) hok.2
          (Nat.le_trans (List.length_erase_le t hs) hle) m

/-- C8: under the semaphore discipline of the shared gate of capacity
semCapacity = 5 (asyncio.Semaphore(5), acquired around every attempt
body), at every point of a valid batch trace the number of attempt
bodies currently holding a slot is at most semCapacity. -/
theorem semaphore_concurrency_bound (evs : List GateEvent)
    (h : gateOk semCapacity [] evs = true) :
    ∀ n, (holdingFrom [] (evs.take n)).length ≤ semCapacity :=
  holdingFrom_take_bound semCapacity evs [] h (Nat.zero_le _)

/-- C8 witness: a 7-task trace through the gate never holds more than
5 slots at any prefix. -/
theorem semaphore_concurrency_bound_witness :
    (holdingFrom []
      (([GateEvent.acquire 1, .acquire 2, .acquire 3, .acquire 4, .acquire 5,
        .release 2, .acquire 6, .release 1]).take 7)).length ≤ semCapacity :=
  semaphore_concurrency_bound
    [GateEvent.acquire 1, .acquire 2, .acquire 3, .acquire 4, .acquire 5,
      .release 2, .acquire 6, .release 1] (by decide) 7

/-- C9 counterexample: in a world where every navigation completes and
extraction yields the 5-character text "short", the CLI surface
reports status=success for the URL while the HTTP batch surface,
applying its content-length validation and retry policy, reports
status=error: the two surfaces do not share per-URL semantics. -/
theorem cli_api_semantics_divergence :
    (cli_scrape_single_url (fun _ => none) (fun _ => "short") (NavResult.ok "<html>" "T")
        "https://a.test").map (fun r => r.status) = some "success" ∧
    ((scrape_single_url
        (fun _ => run_attempt (fun _ => none) (fun _ => "short") (NavResult.ok "<html>" "T"))
        "https://a.test" 3).1).map (fun r => r.status) = some "error" := by
  exact ⟨rfl, rfl⟩

theorem cliTasks_urls (traf : String → Option String) (h2t : String → String)
    (world : Nat → NavResult) :
    ∀ (urls : List String) (i : Nat),
      ((cliTasks traf h2t world i urls).filterMap id).map (fun r => r.url) =
        (urls.map pyStrip).filter (fun s => s != "") := by
  intro urls
  induction urls with
  | nil => intro i; rfl
  | cons u rest ih =>
    intro i
    by_cases h : pyStrip u = ""
    · cases hw : world i <;>
        simp [cliTasks, cli_scrape_single_url, hw, h, ih]
    · cases hw : world i <;>
        simp [cliTasks, cli_scrape_single_url, hw, h, ih]

/-- C9 (amended): the CLI surface shares the batch contract's URL
handling — results in input order restricted to non-blank entries —
and its per-URL result shape, but performs exactly one attempt per
URL: a completed navigation yields status=success with the extracted
content regardless of its length (no content-length validation, no
retry/backoff, no attempts reporting), and a navigation failure
immediately yields status=error carrying the exception text. -/
theorem cli_surface_contract (traf : String → Option String) (h2t : String → String)
    (world : Nat → NavResult) :
    (∀ urls, (cli_scrape_urls_async traf h2t world urls).map (fun r => r.url) =
      (urls.map pyStrip).filter (fun s => s != "")) ∧
    (∀ html title u, pyStrip u ≠ "" →
      cli_scrape_single_url traf h2t (.ok html title) u =
        some ⟨pyStrip u, some title, some (extract_content traf h2t html), "success", none⟩) ∧
    (∀ msg u, pyStrip u ≠ "" →
      cli_scrape_single_url traf h2t (.timeout msg) u =
        some ⟨pyStrip u, none, none, "error", some msg⟩ ∧
      cli_scrape_single_url traf h2t (.fail msg) u =
        some ⟨pyStrip u, none, none, "error", some msg⟩) := by
  refine ⟨?_, ?_, ?_⟩
  · intro urls
    exact cliTasks_urls traf h2t world urls 0
  · intro html title u h
    simp [cli_scrape_single_url, h]
  · intro msg u h
    constructor <;> simp [cli_scrape_single_url, h]

/-- C9 witness: on the parsed CLI list for
"https://a.test, ,https://b.test" with all navigations succeeding, the
CLI returns one success per non-blank URL, in order, each with the
extracted content regardless of length. -/
theorem cli_surface_contract_witness :
    (cli_scrape_urls_async (fun _ => none) (fun _ => "short") (fun _ => NavResult.ok "h" "T")
      (cli_parse_urls "https://a.test, ,https://b.test")).map (fun r => r.url) =
      ["https://a.test", "https://b.test"] ∧
    cli_scrape_single_url (fun _ => none) (fun _ => "short") (NavResult.ok "h" "T")
      "https://a.test" =
      some ⟨"https://a.test", some "T", some "short", "success", none⟩ := by
  constructor
  · have h := (cli_surface_contract (fun _ => none) (fun _ => "short")
      (fun _ => NavResult.ok "h" "T")).1 (cli_parse_urls "https://a.test, ,https://b.test")
    rw [h]
    rfl
  · have h := (cli_surface_contract (fun _ => none) (fun _ => "short")
      (fun _ => NavResult.ok "h" "T")).2.1 "h" "T" "https://a.test" (by decide)
    rw [h]
    rfl
